import Mathlib

/-!
Shallow embedding of the terminal-gpt conversation editor
(src/custom_widgets/chat.py, src/custom_widgets/vimkey.py, src/app.py)
together with theorems settling the specification claims.

Python strings become String, list indices that may be negative become Int,
dictionaries become association lists in insertion order.  Behaviour of the
external urwid library (ListBox focus, SimpleListWalker focus clamping,
Edit widget) is embedded where the repository code depends on it; each such
definition carries a comment naming the urwid behaviour it models.
-/

/-- A role-tagged message, the unit of persistence: the dictionary
returned by EditableChatBubble.to_dict (chat.py lines 93-97). -/
structure Msg where
  role : String
  content : String
deriving Repr, DecidableEq

/-- The state of a ChatEdit widget (chat.py lines 38-50): an urwid Edit
holding the live edit text and the cursor offset.  ChatEdit.__init__
creates the Edit with empty text (cursor 0) and then set_edit_text, which
keeps the cursor clamped, so a fresh ChatEdit has cursor offset 0. -/
structure ChatEdit where
  edit_text : String
  edit_pos : Nat
deriving Repr, DecidableEq

/-- The widget currently wrapped by an EditableChatBubble
(a urwid WidgetPlaceholder): either a display-only ChatBubble, which is
fully derived from content and role and so carries no state of its own,
or a ChatEdit carrying the live edit buffer. -/
inductive BubbleWidget where
  | chatBubble
  | chatEdit (e : ChatEdit)
deriving Repr, DecidableEq

/-- EditableChatBubble (chat.py lines 52-97): committed content and role,
the remembered cursor position, and the currently wrapped widget. -/
structure EditableChatBubble where
  content : String
  role : String
  last_edit_position : Nat
  original_widget : BubbleWidget
deriving Repr, DecidableEq

namespace EditableChatBubble

/-- EditableChatBubble.__init__ (chat.py lines 53-58). -/
def init (content role : String) : EditableChatBubble :=
  { content := content, role := role, last_edit_position := 0,
    original_widget := BubbleWidget.chatBubble }

/-- The edit_pos argument of enter_insert_mode: the Python call sites pass
the string "start", the string "end", or omit the argument (None). -/
inductive EditPosArg where
  | startPos
  | endPos
  | defaultPos
deriving Repr, DecidableEq

/-- enter_insert_mode (chat.py lines 60-69).  A fresh ChatEdit starts with
the committed content and cursor 0; set_edit_pos (urwid) clamps the
requested position into the text, hence the min in the default case. -/
def enter_insert_mode (b : EditableChatBubble) (pos : EditPosArg) : EditableChatBubble :=
  match b.original_widget with
  | BubbleWidget.chatEdit _ => b
  | BubbleWidget.chatBubble =>
    let p : Nat :=
      match pos with
      | EditPosArg.startPos => 0
      | EditPosArg.endPos => b.content.length
      | EditPosArg.defaultPos => min b.last_edit_position b.content.length
    { b with original_widget := BubbleWidget.chatEdit { edit_text := b.content, edit_pos := p } }

/-- leave_insert_mode (chat.py lines 71-75): copy the live edit text and
cursor back into the committed fields and restore the display widget. -/
def leave_insert_mode (b : EditableChatBubble) : EditableChatBubble :=
  match b.original_widget with
  | BubbleWidget.chatBubble => b
  | BubbleWidget.chatEdit e =>
    { content := e.edit_text, role := b.role, last_edit_position := e.edit_pos,
      original_widget := BubbleWidget.chatBubble }

/-- in_insert_mode (chat.py lines 77-78). -/
def in_insert_mode (b : EditableChatBubble) : Bool :=
  match b.original_widget with
  | BubbleWidget.chatEdit _ => true
  | BubbleWidget.chatBubble => false

/-- update (chat.py lines 80-82): rebuild the wrapped widget of the same
class from the committed content and role.  Rebuilding a ChatEdit yields a
fresh edit buffer holding the committed content with cursor 0. -/
def update (b : EditableChatBubble) : EditableChatBubble :=
  match b.original_widget with
  | BubbleWidget.chatBubble => b
  | BubbleWidget.chatEdit _ =>
    { b with original_widget := BubbleWidget.chatEdit { edit_text := b.content, edit_pos := 0 } }

/-- get_content (chat.py lines 87-91): the live edit text while a ChatEdit
is wrapped, the committed content otherwise. -/
def get_content (b : EditableChatBubble) : String :=
  match b.original_widget with
  | BubbleWidget.chatEdit e => e.edit_text
  | BubbleWidget.chatBubble => b.content

/-- to_dict (chat.py lines 93-97), the per-bubble serialisation when it is
actually called. -/
def to_dict (b : EditableChatBubble) : Msg :=
  { role := b.role, content := b.get_content }

/-- Models urwid Edit keypress for the keys forwarded to a ChatEdit while
in insert mode (external urwid behaviour; not load-bearing for any claim):
a single printable character is inserted at the cursor, anything else is
returned unhandled. -/
def editKeypress (e : ChatEdit) (key : String) : ChatEdit × Option String :=
  if key.length = 1 then
    ({ edit_text := (e.edit_text.take e.edit_pos) ++ key ++ (e.edit_text.drop e.edit_pos),
       edit_pos := e.edit_pos + 1 }, none)
  else
    (e, some key)

/-- keypress on the bubble while a ChatEdit is wrapped: forwarded to the
Edit widget (chat.py line 150 forwards to self.focus). -/
def keypress (b : EditableChatBubble) (key : String) : EditableChatBubble × Option String :=
  match b.original_widget with
  | BubbleWidget.chatEdit e =>
    let r := editKeypress e key
    ({ b with original_widget := BubbleWidget.chatEdit r.1 }, r.2)
  | BubbleWidget.chatBubble => (b, some key)

end EditableChatBubble

/-- ChatHistory (chat.py lines 100-161), a urwid ListBox over a
SimpleListWalker.  The walker stores the message widgets and a focus index;
urwid keeps the focus index clamped into range on every content change
(SimpleListWalker _modified clamps with max(0, len-1)), so after any
operation walker_focus is 0 when the list is empty and below the length
otherwise. -/
structure ChatHistory where
  message_list : List EditableChatBubble
  walker_focus : Nat
deriving Repr, DecidableEq

namespace ChatHistory

/-- Models SimpleListWalker._modified (external urwid behaviour): after a
content mutation the focus index is clamped to max(0, len-1). -/
def walkerClamp (h : ChatHistory) : ChatHistory :=
  if h.message_list.length ≤ h.walker_focus then
    { h with walker_focus := h.message_list.length - 1 }
  else h

/-- ChatHistory.set_focus (chat.py lines 113-117): the urwid walker raises
IndexError when the position is outside [0, len), and the override catches
it, so an out-of-range position leaves the state unchanged. -/
def set_focus (h : ChatHistory) (position : Int) : ChatHistory :=
  if 0 ≤ position ∧ position < (h.message_list.length : Int) then
    { h with walker_focus := position.toNat }
  else h

/-- Models the ListBox focus property (external urwid behaviour): the
widget in focus, or none when the list is empty. -/
def focus (h : ChatHistory) : Option EditableChatBubble :=
  h.message_list[h.walker_focus]?

/-- Models the ListBox focus_position property (external urwid behaviour):
it raises IndexError when the list is empty; every caller in the
repository that can reach the empty case wraps the access in try/except,
which this Option models. -/
def focus_position (h : ChatHistory) : Option Nat :=
  if h.message_list.isEmpty then none else some h.walker_focus

/-- ChatHistory.delete_message (chat.py lines 135-140): guard the index,
delete, let the walker clamp its focus, then set_focus to
min(index, new length) - an out-of-range target (deleting the last entry)
raises IndexError inside set_focus and is swallowed there. -/
def delete_message (h : ChatHistory) (index : Int) : ChatHistory :=
  if 0 ≤ index ∧ index < (h.message_list.length : Int) then
    let h1 := walkerClamp { h with message_list := h.message_list.eraseIdx index.toNat }
    h1.set_focus (min index (h1.message_list.length : Int))
  else h

/-- ChatHistory._build_message_widgets (chat.py lines 119-126). -/
def build_message_widgets (messages : List Msg) : List EditableChatBubble :=
  messages.map (fun m => EditableChatBubble.init m.content m.role)

/-- ChatHistory.__init__ (chat.py lines 101-111): an empty or missing
message list yields a single fresh empty user bubble opened in insert
mode at position start; otherwise one bubble per message.  Focus is then
set to the last index. -/
def init (messages : List Msg) : ChatHistory :=
  if messages.isEmpty then
    let first := (EditableChatBubble.init "" "user").enter_insert_mode
      EditableChatBubble.EditPosArg.startPos
    let h : ChatHistory := { message_list := [first], walker_focus := 0 }
    h.set_focus ((h.message_list.length : Int) - 1)
  else
    let h : ChatHistory := { message_list := build_message_widgets messages, walker_focus := 0 }
    h.set_focus ((h.message_list.length : Int) - 1)

/-- Models the fallback super().keypress of ChatHistory.keypress for keys
the ListBox itself does not consume (external urwid behaviour; none of the
claims depends on it): the key is reported unhandled. -/
def listBoxFallback (key : String) : Option String :=
  some key

/-- ChatHistory.keypress (chat.py lines 142-161).  With a focused bubble
in insert mode, esc commits the edit session and consumes the key and any
other key is forwarded to the edit widget; otherwise J/K scroll via the
ListBox, j/k move the focus and fall through, and everything else falls
through to the ListBox. -/
def keypress (h : ChatHistory) (key : String) : ChatHistory × Option String :=
  match h.focus with
  | some b =>
    if b.in_insert_mode then
      if key = "esc" then
        ({ h with message_list := h.message_list.set h.walker_focus b.leave_insert_mode }, none)
      else
        let r := b.keypress key
        ({ h with message_list := h.message_list.set h.walker_focus r.1 }, r.2)
    else
      if key = "J" then (h.set_focus ((h.walker_focus : Int) + 1), none)
      else if key = "K" then (h.set_focus ((h.walker_focus : Int) - 1), none)
      else if key = "j" then (h.set_focus ((h.walker_focus : Int) + 1), listBoxFallback key)
      else if key = "k" then (h.set_focus ((h.walker_focus : Int) - 1), listBoxFallback key)
      else (h, listBoxFallback key)
  | none => (h, listBoxFallback key)

end ChatHistory

/-- A Python value as it reaches json.dump in write_changes: strings,
lists, dictionaries, or a bound-method object.  The last constructor
records what the expression msg.to_dict (without call parentheses) at
chat.py line 129 evaluates to: the bound method of the bubble, not the
dictionary. -/
inductive PyVal where
  | pyStr (s : String)
  | pyList (items : List PyVal)
  | pyDictV (fields : List (String × PyVal))
  | pyBoundMethod (receiver : EditableChatBubble) (methodName : String)
deriving Repr

mutual

/-- Whether json.dump accepts the value: strings, lists and dictionaries
of serialisable values are accepted; a bound-method object makes json.dump
raise TypeError. -/
def jsonSerializable : PyVal → Bool
  | PyVal.pyStr _ => true
  | PyVal.pyList items => jsonSerializableList items
  | PyVal.pyDictV fields => jsonSerializableFields fields
  | PyVal.pyBoundMethod _ _ => false

def jsonSerializableList : List PyVal → Bool
  | [] => true
  | v :: rest => jsonSerializable v && jsonSerializableList rest

def jsonSerializableFields : List (String × PyVal) → Bool
  | [] => true
  | f :: rest => jsonSerializable f.2 && jsonSerializableFields rest

end

/-- ChatHistory.to_dict exactly as written (chat.py lines 128-129):
the comprehension reads msg.to_dict without calling it, so the resulting
list holds one bound-method object per message. -/
def chatHistoryToDict (h : ChatHistory) : PyVal :=
  PyVal.pyList (h.message_list.map (fun b => PyVal.pyBoundMethod b "to_dict"))

/-- The serialisation of a message dictionary, for comparison: what each
element would have been had the comprehension called the method. -/
def msgToPyVal (m : Msg) : PyVal :=
  PyVal.pyDictV [("content", PyVal.pyStr m.content), ("role", PyVal.pyStr m.role)]

/-- ChatApp.write_changes (app.py lines 207-209): json.dump of
chat_history.to_dict().  The result is the value written on success, or
the TypeError message json.dump raises on a non-serialisable value. -/
def write_changes (h : ChatHistory) : Except String PyVal :=
  let v := chatHistoryToDict h
  if jsonSerializable v then Except.ok v
  else Except.error "Object of type method is not JSON serializable"

/-- The two exception classes caught by ChatApp.__init__ when reading the
chat file (app.py line 112): a missing file and an unparsable one. -/
inductive LoadErr where
  | fileNotFound
  | jsonDecodeErr
deriving Repr, DecidableEq

/-- The load-on-start flow of ChatApp.__init__ (app.py lines 105-115):
messages starts empty, json.load may replace it, and both
json.JSONDecodeError and FileNotFoundError are caught and ignored, so a
failed read leaves messages empty and raises nothing. -/
def loadMessages (readResult : Except LoadErr (List Msg)) : List Msg :=
  match readResult with
  | Except.error _ => []
  | Except.ok msgs => msgs

/-- ChatApp.__init__ messages flow including the chat_file is None case
(app.py lines 105-115): no file configured means no read is attempted. -/
def appInitMessages (chatFile : Option (Except LoadErr (List Msg))) : List Msg :=
  match chatFile with
  | none => []
  | some r => loadMessages r

/-- One key chord as urwid delivers it (a character or a named
combination such as ctrl up). -/
abbrev Chord := String

/-- The action identifiers bound in VimKeyHandler.keybinds
(vimkey.py lines 24-41); the chords i and a are bound to the same method
and therefore share one identifier. -/
inductive VimAction where
  | goToLastMessage
  | enterInsertMode
  | enterInsertModeStart
  | enterInsertModeEnd
  | focusNextMessage
  | focusPreviousMessage
  | switchMessageToUser
  | switchMessageToAssistant
  | swapMessageUp
  | swapMessageDown
  | addMessageAbove
  | addMessageBelow
  | clearFocusedMessage
  | deleteFocusedMessage
  | goToFirstMessage
deriving Repr, DecidableEq

/-- The binding table of VimKeyHandler.__init__ (vimkey.py lines 24-41)
as an association list in dictionary insertion order, which is the
iteration order of the keypress loop. -/
def keybinds : List (List Chord × VimAction) :=
  [(["G"], VimAction.goToLastMessage),
   (["i"], VimAction.enterInsertMode),
   (["a"], VimAction.enterInsertMode),
   (["I"], VimAction.enterInsertModeStart),
   (["A"], VimAction.enterInsertModeEnd),
   (["j"], VimAction.focusNextMessage),
   (["k"], VimAction.focusPreviousMessage),
   (["l"], VimAction.switchMessageToUser),
   (["h"], VimAction.switchMessageToAssistant),
   (["ctrl up"], VimAction.swapMessageUp),
   (["ctrl down"], VimAction.swapMessageDown),
   (["o"], VimAction.addMessageAbove),
   (["O"], VimAction.addMessageBelow),
   (["c"], VimAction.clearFocusedMessage),
   (["d", "d"], VimAction.deleteFocusedMessage),
   (["g", "g"], VimAction.goToFirstMessage)]

/-- What the dispatcher does with one key chord. -/
inductive Outcome where
  | executed (a : VimAction)
  | consumed
  | unmatched (c : Chord)
deriving Repr, DecidableEq

/-- The for loop of VimKeyHandler.keypress (vimkey.py lines 82-89): scan
the table in order; the first binding equal to the buffer executes, the
first binding with the buffer as a proper front segment waits, and
falling off the loop reports no match. -/
def dispatchScan (buf : List Chord) : List (List Chord × VimAction) → Option (Option VimAction)
  | [] => none
  | kb :: rest =>
    if kb.1 = buf then some (some kb.2)
    else if buf.isPrefixOf kb.1 then some none
    else dispatchScan buf rest

/-- The normal-mode body of VimKeyHandler.keypress (vimkey.py lines
78-94) acting on the pending key_buffer: append the chord, scan the
table, and either execute and clear, keep waiting, or clear and hand the
chord to the default handler (the super().keypress call at line 94).
Footer updates are rendering and carry no dispatch state. -/
def keypressDispatch (table : List (List Chord × VimAction)) (buf : List Chord)
    (c : Chord) : List Chord × Outcome :=
  let buf1 := buf ++ [c]
  match dispatchScan buf1 table with
  | some (some a) => ([], Outcome.executed a)
  | some none => (buf1, Outcome.consumed)
  | none => ([], Outcome.unmatched c)

/-- VimKeyHandler (vimkey.py lines 8-46): the chat history it drives, the
insert-mode flag, and the pending key buffer.  Header and footer are
rendering collaborators and carry no dispatch state. -/
structure VimKeyHandler where
  chat_history : ChatHistory
  insert_mode : Bool
  key_buffer : List Chord
deriving Repr, DecidableEq

namespace VimKeyHandler

/-- VimKeyHandler.delete_focused_message (vimkey.py lines 112-117):
reading focus_position on an empty list raises IndexError, which the
try/except turns into a no-op; otherwise delete_message runs at the
focused index. -/
def delete_focused_message (s : VimKeyHandler) : VimKeyHandler :=
  match s.chat_history.focus_position with
  | none => s
  | some idx => { s with chat_history := s.chat_history.delete_message (idx : Int) }

/-- VimKeyHandler.switch_message_role (vimkey.py lines 139-150): when a
widget is in focus, assign the given role to it and rebuild its wrapped
widget with update. -/
def switch_message_role (s : VimKeyHandler) (role : String) : VimKeyHandler :=
  match s.chat_history.focus with
  | none => s
  | some b =>
    let b1 := EditableChatBubble.update { b with role := role }
    { s with chat_history :=
        { s.chat_history with
          message_list := s.chat_history.message_list.set s.chat_history.walker_focus b1 } }

/-- switch_message_to_assistant (vimkey.py lines 146-147). -/
def switch_message_to_assistant (s : VimKeyHandler) : VimKeyHandler :=
  s.switch_message_role "assistant"

/-- switch_message_to_user (vimkey.py lines 149-150). -/
def switch_message_to_user (s : VimKeyHandler) : VimKeyHandler :=
  s.switch_message_role "user"

/-- VimKeyHandler.swap_message (vimkey.py lines 153-164): read the focus
position (IndexError on an empty list is caught), guard the target index
against the Python negative-index wraparound, read both entries (an
IndexError on the second read is caught before any mutation), exchange
them and move the focus to the target. -/
def swap_message (s : VimKeyHandler) (delta : Int) : VimKeyHandler :=
  match s.chat_history.focus_position with
  | none => s
  | some idx =>
    let new_idx : Int := (idx : Int) + delta
    if 0 ≤ new_idx then
      match s.chat_history.message_list[idx]? with
      | none => s
      | some message =>
        match s.chat_history.message_list[new_idx.toNat]? with
        | none => s
        | some prev_message =>
          let l1 := (s.chat_history.message_list.set idx prev_message).set
            new_idx.toNat message
          { s with chat_history :=
              ChatHistory.set_focus { s.chat_history with message_list := l1 } new_idx }
    else s

/-- swap_message_up (vimkey.py lines 167-168). -/
def swap_message_up (s : VimKeyHandler) : VimKeyHandler :=
  s.swap_message (-1)

/-- swap_message_down (vimkey.py lines 170-171). -/
def swap_message_down (s : VimKeyHandler) : VimKeyHandler :=
  s.swap_message 1

end VimKeyHandler

/-- The submission gate of ChatApp (app.py lines 81, 211-220): the busy
flag together with instrumentation for the temporal claim, counting the
completion requests currently in flight and the total ever started. -/
structure AppGate where
  busy : Bool
  inFlight : Nat
  started : Nat
deriving Repr, DecidableEq

/-- The events that touch the gate: the enter key reaching handle_input,
any other key, and the end of get_response (its finally block clears the
busy flag, app.py lines 216-219).  Streaming suspends at draw_screen, so
the end of a completion is a separate event from its start. -/
inductive AppEvent where
  | enterKey
  | otherKey (k : String)
  | streamDone
deriving Repr, DecidableEq

/-- One step of the gate, following handle_input (app.py lines 211-220):
enter while busy returns immediately with nothing recorded or queued;
enter while idle sets the busy flag and starts one completion; the finally
block of a finishing completion clears the flag. -/
def gateStep (s : AppGate) : AppEvent → AppGate
  | AppEvent.enterKey =>
    if s.busy then s
    else { busy := true, inFlight := s.inFlight + 1, started := s.started + 1 }
  | AppEvent.otherKey _ => s
  | AppEvent.streamDone =>
    if s.inFlight = 0 then s
    else { busy := false, inFlight := s.inFlight - 1, started := s.started }

/-- The gate state at construction (app.py line 81): not busy. -/
def gateInit : AppGate :=
  { busy := false, inFlight := 0, started := 0 }

/-- Running a sequence of events through the gate. -/
def gateRun (evs : List AppEvent) : AppGate :=
  evs.foldl gateStep gateInit

/-- ChatApp.input_filter (app.py lines 137-143): while busy, every enter
press is removed from the input list before it can reach handle_input. -/
def input_filter (busy : Bool) (input_list : List String) : List String :=
  if busy then input_list.filter (fun k => k ≠ "enter") else input_list

/-- The invariant of the submission gate: at most one completion is in
flight and the busy flag is set exactly while one is. -/
def gateInv (s : AppGate) : Prop :=
  s.inFlight ≤ 1 ∧ (s.busy = true ↔ s.inFlight = 1)

/-- The concrete mid-edit bubble used by the C7 witness. -/
def escWitnessBubble : EditableChatBubble :=
  { content := "old", role := "user", last_edit_position := 0,
    original_widget := BubbleWidget.chatEdit { edit_text := "typed", edit_pos := 2 } }

/-- The concrete one-entry history used by the C7 witness. -/
def escWitnessHistory : ChatHistory :=
  { message_list := [escWitnessBubble], walker_focus := 0 }

/-- A history whose single entry has role assistant, for the C5
counterexample. -/
def roleSwitchState : VimKeyHandler :=
  { chat_history :=
      { message_list := [EditableChatBubble.init "hi" "assistant"], walker_focus := 0 },
    insert_mode := false, key_buffer := [] }

/-- A one-entry document in normal mode, for the C4 counterexample. -/
def lastEntryState : VimKeyHandler :=
  { chat_history :=
      { message_list := [EditableChatBubble.init "" "user"], walker_focus := 0 },
    insert_mode := false, key_buffer := [] }

/-- A two-entry document focused on the last entry, for the C4 witness. -/
def deleteWitnessState : VimKeyHandler :=
  { chat_history :=
      { message_list := [EditableChatBubble.init "a" "user",
          EditableChatBubble.init "b" "assistant"],
        walker_focus := 1 },
    insert_mode := false, key_buffer := [] }

/-- An empty document, for the C6 witness. -/
def emptyDocState : VimKeyHandler :=
  { chat_history := { message_list := [], walker_focus := 0 },
    insert_mode := false, key_buffer := [] }

/-- A one-entry document focused at index 0, for the C6 witness. -/
def oneEntryState : VimKeyHandler :=
  { chat_history :=
      { message_list := [EditableChatBubble.init "a" "user"], walker_focus := 0 },
    insert_mode := false, key_buffer := [] }

/-!  Theorems settling the claims. -/

/-- Setting one list position to an element with the same image under f
leaves the mapped list unchanged. -/
theorem map_set_invariant {α β : Type} (f : α → β) (l : List α) (i : Nat) (a b : α)
    (hb : l[i]? = some b) (hf : f a = f b) : (l.set i a).map f = l.map f := by
  induction l generalizing i with
  | nil => cases hb
  | cons x xs ih =>
    cases i with
    | zero =>
      have hx : x = b := by simpa using hb
      subst hx
      simp [hf]
    | succ n =>
      have hb1 : xs[n]? = some b := by simpa using hb
      simp [ih n hb1]

/-- Rebuilding a widget twice equals rebuilding it once. -/
theorem update_update (b : EditableChatBubble) : b.update.update = b.update := by
  cases hw : b.original_widget <;> simp [EditableChatBubble.update, hw]

/-- Rebuilding the widget keeps the role. -/
theorem update_role (b : EditableChatBubble) : b.update.role = b.role := by
  cases hw : b.original_widget <;> simp [EditableChatBubble.update, hw]

/-- Rebuilding the widget keeps the committed content. -/
theorem update_content (b : EditableChatBubble) : b.update.content = b.content := by
  cases hw : b.original_widget <;> simp [EditableChatBubble.update, hw]

/-- C3: with the binding table of the source, which binds the sequence
d d and has no binding on d alone, feeding d and then d consumes the
first chord without executing anything and then executes the delete
action exactly once, leaving the pending buffer empty; feeding d and
then x executes nothing, returns the buffer to empty, and hands the
unmatched final chord x back to the default handler. -/
theorem C3_dd_sequence :
    keypressDispatch keybinds [] "d" = (["d"], Outcome.consumed) ∧
    keypressDispatch keybinds ["d"] "d"
      = ([], Outcome.executed VimAction.deleteFocusedMessage) ∧
    keypressDispatch keybinds ["d"] "x" = ([], Outcome.unmatched "x") := by
  refine ⟨?_, ?_, ?_⟩ <;> rfl

/-- C2 counterexample: a binding table in which the shorter sequence d
precedes its strict extension d d.  Feeding d executes the action of the
shorter binding at once instead of waiting for the next chord, so the
dispatcher does not always prefer the longer sequence. -/
theorem C2_counterexample :
    keypressDispatch
        [(["d"], VimAction.goToFirstMessage), (["d", "d"], VimAction.deleteFocusedMessage)]
        [] "d"
      = ([], Outcome.executed VimAction.goToFirstMessage) ∧
    (keypressDispatch
        [(["d"], VimAction.goToFirstMessage), (["d", "d"], VimAction.deleteFocusedMessage)]
        [] "d").2
      ≠ Outcome.consumed := by
  refine ⟨rfl, ?_⟩
  intro hcontra
  simp [keypressDispatch, dispatchScan] at hcontra

/-- C2 amended: the dispatcher resolves an exact-match versus
longer-sequence overlap by table iteration order, not by always taking
the longer sequence.  When the binding with the longer sequence precedes
every other binding that has the extended buffer as a front segment, the
dispatcher does keep waiting: no action runs and the buffer is kept. -/
theorem C2_longer_first_waits (X Y : List (List Chord × VimAction)) (l : List Chord)
    (b : VimAction) (buf : List Chord) (c : Chord)
    (hX : ∀ kb ∈ X, (buf ++ [c]).isPrefixOf kb.1 = false)
    (hl : (buf ++ [c]).isPrefixOf l = true) (hne : l ≠ buf ++ [c]) :
    keypressDispatch (X ++ (l, b) :: Y) buf c = (buf ++ [c], Outcome.consumed) := by
  have hscan : dispatchScan (buf ++ [c]) (X ++ (l, b) :: Y) = some none := by
    induction X with
    | nil => simp [dispatchScan, hne, hl]
    | cons kb rest ih =>
      have h1 : (buf ++ [c]).isPrefixOf kb.1 = false := hX kb (by simp)
      have hrefl : ∀ xs : List Chord, xs.isPrefixOf xs = true := by
        intro xs
        induction xs with
        | nil => rfl
        | cons x t ihx => simp [List.isPrefixOf, ihx]
      have hne1 : kb.1 ≠ buf ++ [c] := by
        intro he
        rw [he] at h1
        rw [hrefl (buf ++ [c])] at h1
        cases h1
      have ih1 := ih (fun kb2 hm => hX kb2 (by simp [hm]))
      simpa [dispatchScan, hne1, h1] using ih1
  simp [keypressDispatch, hscan]

/-- C2 amended witness: the same overlapping pair with the longer
sequence listed first; feeding d waits for the next chord. -/
theorem C2_longer_first_waits_witness :
    keypressDispatch
        [(["d", "d"], VimAction.deleteFocusedMessage), (["d"], VimAction.goToFirstMessage)]
        [] "d"
      = (["d"], Outcome.consumed) :=
  C2_longer_first_waits [] [(["d"], VimAction.goToFirstMessage)] ["d", "d"]
    VimAction.deleteFocusedMessage [] "d" (by intro kb hm; cases hm) (by decide) (by decide)

/-- C9: when the chat file is missing or fails to parse, the load flow of
ChatApp.__init__ swallows the exception and keeps the empty message list,
so the ChatHistory it then builds is exactly the one built from no
messages; the failure is never propagated (the embedding is a total
function into the message list, mirroring the try/except). -/
theorem C9_load_failure_empty (e : LoadErr) :
    loadMessages (Except.error e) = [] ∧
    appInitMessages (some (Except.error e)) = [] ∧
    ChatHistory.init (loadMessages (Except.error e)) = ChatHistory.init [] := by
  refine ⟨rfl, rfl, rfl⟩

/-- C10: get_content returns the live edit text of the wrapped ChatEdit
while the bubble is in insert mode and the committed content otherwise,
and to_dict therefore serialises the live, possibly uncommitted text. -/
theorem C10_get_content_live (b : EditableChatBubble) (e : ChatEdit) :
    (b.original_widget = BubbleWidget.chatEdit e →
      b.in_insert_mode = true ∧ b.get_content = e.edit_text ∧
      b.to_dict = { role := b.role, content := e.edit_text }) ∧
    (b.original_widget = BubbleWidget.chatBubble →
      b.in_insert_mode = false ∧ b.get_content = b.content ∧
      b.to_dict = { role := b.role, content := b.content }) := by
  constructor <;> intro hw <;>
    simp [EditableChatBubble.in_insert_mode, EditableChatBubble.get_content,
      EditableChatBubble.to_dict, hw]

/-- C10 witness: a bubble whose committed content is stale while the live
edit buffer holds the typed text. -/
theorem C10_get_content_live_witness :
    EditableChatBubble.in_insert_mode
        { content := "committed", role := "user", last_edit_position := 0,
          original_widget := BubbleWidget.chatEdit { edit_text := "typed", edit_pos := 3 } }
      = true ∧
    EditableChatBubble.get_content
        { content := "committed", role := "user", last_edit_position := 0,
          original_widget := BubbleWidget.chatEdit { edit_text := "typed", edit_pos := 3 } }
      = "typed" ∧
    EditableChatBubble.to_dict
        { content := "committed", role := "user", last_edit_position := 0,
          original_widget := BubbleWidget.chatEdit { edit_text := "typed", edit_pos := 3 } }
      = { role := "user", content := "typed" } :=
  (C10_get_content_live
    { content := "committed", role := "user", last_edit_position := 0,
      original_widget := BubbleWidget.chatEdit { edit_text := "typed", edit_pos := 3 } }
    { edit_text := "typed", edit_pos := 3 }).1 rfl

theorem gateStep_inv (s : AppGate) (hv : gateInv s) (e : AppEvent) :
    gateInv (gateStep s e) := by
  obtain ⟨h1, h2⟩ := hv
  cases e with
  | enterKey =>
    by_cases hb : s.busy = true
    · simpa [gateStep, hb] using ⟨h1, h2⟩
    · have hb0 : s.busy = false := by
        cases hbv : s.busy
        · rfl
        · exact absurd hbv hb
      have hz : s.inFlight = 0 := by
        rcases Nat.lt_or_ge s.inFlight 1 with hlt | hge
        · omega
        · exfalso
          exact hb (h2.mpr (by omega))
      simp [gateStep, hb0, gateInv, hz]
  | otherKey k => simpa [gateStep] using ⟨h1, h2⟩
  | streamDone =>
    by_cases hz : s.inFlight = 0
    · simpa [gateStep, hz] using ⟨h1, h2⟩
    · have hf1 : s.inFlight = 1 := by omega
      simp [gateStep, hz, gateInv, hf1]

theorem gateRun_inv_aux (evs : List AppEvent) :
    ∀ s : AppGate, gateInv s → gateInv (evs.foldl gateStep s) := by
  induction evs with
  | nil => intro s hv; exact hv
  | cons e rest ih => intro s hv; exact ih (gateStep s e) (gateStep_inv s hv e)

theorem gateRun_inv (evs : List AppEvent) : gateInv (gateRun evs) :=
  gateRun_inv_aux evs gateInit (by simp [gateInv, gateInit])

/-- C8: while the busy flag is set a submit attempt changes nothing at
all (nothing starts, nothing is queued, the started counter does not
move); across every sequence of gate events starting from the initial
state at most one completion is ever in flight; and in addition
input_filter removes every enter press from the input while busy. -/
theorem C8_busy_gate :
    (∀ s : AppGate, s.busy = true → gateStep s AppEvent.enterKey = s) ∧
    (∀ evs : List AppEvent, (gateRun evs).inFlight ≤ 1) ∧
    (∀ ks : List String, "enter" ∉ input_filter true ks) := by
  refine ⟨?_, ?_, ?_⟩
  · intro s hb
    simp [gateStep, hb]
  · intro evs
    exact (gateRun_inv evs).1
  · intro ks hmem
    simp [input_filter] at hmem

/-- C8 witness: a busy gate ignores enter, a trace with a nested submit
attempt never has two completions in flight, and a busy input filter
drops a concrete enter press. -/
theorem C8_busy_gate_witness :
    gateStep { busy := true, inFlight := 1, started := 1 } AppEvent.enterKey
      = { busy := true, inFlight := 1, started := 1 } ∧
    (gateRun [AppEvent.enterKey, AppEvent.enterKey, AppEvent.streamDone,
        AppEvent.enterKey]).inFlight ≤ 1 ∧
    "enter" ∉ input_filter true ["a", "enter", "q"] :=
  ⟨C8_busy_gate.1 { busy := true, inFlight := 1, started := 1 } rfl,
   C8_busy_gate.2.1 [AppEvent.enterKey, AppEvent.enterKey, AppEvent.streamDone,
      AppEvent.enterKey],
   C8_busy_gate.2.2 ["a", "enter", "q"]⟩

/-- C7: whenever the focused bubble is in insert mode, pressing esc
commits the edit session for every edit-session state: the live edit text
and cursor offset are copied into the committed fields, the display
widget replaces the edit widget, and the key is consumed; no path
discards the typed content. -/
theorem C7_esc_commits (h : ChatHistory) (b : EditableChatBubble) (e : ChatEdit)
    (hb : h.focus = some b) (hw : b.original_widget = BubbleWidget.chatEdit e) :
    (h.keypress "esc").2 = none ∧
    (h.keypress "esc").1.message_list =
      h.message_list.set h.walker_focus
        { content := e.edit_text, role := b.role, last_edit_position := e.edit_pos,
          original_widget := BubbleWidget.chatBubble } := by
  have hins : b.in_insert_mode = true := by
    simp [EditableChatBubble.in_insert_mode, hw]
  simp [ChatHistory.keypress, hb, hins, EditableChatBubble.leave_insert_mode, hw]

/-- C7 witness: a one-entry history mid-edit; esc writes the typed text
and cursor back and consumes the key. -/
theorem C7_esc_commits_witness :
    (ChatHistory.keypress escWitnessHistory "esc").2 = none ∧
    (ChatHistory.keypress escWitnessHistory "esc").1.message_list =
      List.set [escWitnessBubble] 0
        { content := "typed", role := "user", last_edit_position := 2,
          original_widget := BubbleWidget.chatBubble } :=
  C7_esc_commits escWitnessHistory escWitnessBubble
    { edit_text := "typed", edit_pos := 2 } rfl rfl

/-- C1 evaluation at the failing input (code bug): ChatHistory.to_dict
builds its list from the expression msg.to_dict without calling it, so
for every non-empty history the value handed to json.dump contains
bound-method objects and json.dump raises TypeError instead of writing
the role and content pairs; the save half of the round trip therefore
fails on every document with at least one entry. -/
theorem C1_write_changes_raises (h : ChatHistory) (hne : h.message_list ≠ []) :
    write_changes h = Except.error "Object of type method is not JSON serializable" := by
  obtain ⟨b, rest, hl⟩ : ∃ b rest, h.message_list = b :: rest := by
    cases hm : h.message_list with
    | nil => exact absurd hm hne
    | cons b rest => exact ⟨b, rest, rfl⟩
  simp [write_changes, chatHistoryToDict, hl, jsonSerializable, jsonSerializableList]

/-- C1 witness: saving a one-message document raises instead of writing. -/
theorem C1_write_changes_raises_witness :
    write_changes
        { message_list := [EditableChatBubble.init "hi" "user"], walker_focus := 0 }
      = Except.error "Object of type method is not JSON serializable" :=
  C1_write_changes_raises
    { message_list := [EditableChatBubble.init "hi" "user"], walker_focus := 0 }
    (by simp)

/-- C5 counterexample: the source role-switch operations assign a fixed
role instead of toggling.  Applying the user-role switch twice to a
focused entry whose original role is assistant leaves the role user, so
double application does not return the role to its original value. -/
theorem C5_counterexample :
    roleSwitchState.chat_history.message_list.map EditableChatBubble.role
      = ["assistant"] ∧
    (roleSwitchState.switch_message_to_user.switch_message_to_user).chat_history.message_list.map
        EditableChatBubble.role = ["user"] ∧
    (roleSwitchState.switch_message_to_user.switch_message_to_user).chat_history.message_list.map
        EditableChatBubble.role ≠
      roleSwitchState.chat_history.message_list.map EditableChatBubble.role := by
  refine ⟨rfl, rfl, ?_⟩
  decide

/-- C5 amended: each role-switch operation assigns a fixed role to the
focused entry, so it is idempotent - applying it twice equals applying it
once - and it leaves the committed content of every entry unchanged; it
does not restore the original role. -/
theorem C5_role_switch_idempotent (s : VimKeyHandler) (r : String) :
    (s.switch_message_role r).switch_message_role r = s.switch_message_role r ∧
    (s.switch_message_role r).chat_history.message_list.map EditableChatBubble.content
      = s.chat_history.message_list.map EditableChatBubble.content := by
  cases hf : s.chat_history.focus with
  | none =>
    have h1 : s.switch_message_role r = s := by
      simp [VimKeyHandler.switch_message_role, hf]
    rw [h1]
    exact ⟨h1, rfl⟩
  | some b =>
    have hlt : s.chat_history.walker_focus < s.chat_history.message_list.length := by
      have := hf
      rw [ChatHistory.focus] at this
      exact (List.getElem?_eq_some.mp this).1
    have hstep : s.switch_message_role r =
        { s with chat_history :=
            { s.chat_history with
              message_list := s.chat_history.message_list.set s.chat_history.walker_focus
                (EditableChatBubble.update { b with role := r }) } } := by
      simp [VimKeyHandler.switch_message_role, hf]
    have hfocus2 : (s.switch_message_role r).chat_history.focus
        = some (EditableChatBubble.update { b with role := r }) := by
      rw [hstep, ChatHistory.focus]
      exact List.getElem?_set_self (by simpa using hlt)
    have hrole2 : (EditableChatBubble.update { b with role := r }).role = r := by
      rw [update_role]
    have hsame : EditableChatBubble.update
        { EditableChatBubble.update { b with role := r } with role := r }
        = EditableChatBubble.update { b with role := r } := by
      have heta : { EditableChatBubble.update { b with role := r } with role := r }
          = EditableChatBubble.update { b with role := r } := by
        cases hu : EditableChatBubble.update { b with role := r } with
        | mk c ro p w =>
          have : ro = r := by
            have := hrole2
            rw [hu] at this
            exact this
          simp [this]
      rw [heta]
      exact update_update { b with role := r }
    constructor
    · rw [hstep]
      have hstep2 : ({ s with chat_history :=
          { s.chat_history with
            message_list := s.chat_history.message_list.set s.chat_history.walker_focus
              (EditableChatBubble.update { b with role := r }) } } : VimKeyHandler).switch_message_role r
          = { s with chat_history :=
              { s.chat_history with
                message_list := s.chat_history.message_list.set s.chat_history.walker_focus
                  (EditableChatBubble.update { b with role := r }) } } := by
        have hfocus2a := hfocus2
        rw [hstep] at hfocus2a
        simp [VimKeyHandler.switch_message_role, hfocus2a, hsame, List.set_set]
      exact hstep2
    · rw [hstep]
      have hcontent : (EditableChatBubble.update { b with role := r }).content = b.content := by
        rw [update_content]
      exact map_set_invariant EditableChatBubble.content s.chat_history.message_list
        s.chat_history.walker_focus _ b hf hcontent

/-- Characterisation of delete_message at an in-range index equal to the
walker focus (the delete_focused_message situation): the entry is removed
and the surviving focus index is min(index, new length - 1), where the
last-entry case goes through the urwid clamp because the explicit
set_focus target min(index, new length) is out of range there. -/
theorem delete_message_spec (h : ChatHistory) (idx : Nat)
    (hwf : h.walker_focus = idx) (hlt : idx < h.message_list.length) :
    h.delete_message (idx : Int) =
      { message_list := h.message_list.eraseIdx idx,
        walker_focus := min idx (h.message_list.length - 2) } := by
  obtain ⟨l, wf⟩ := h
  simp only at hwf hlt
  subst hwf
  have hlen2 : (l.eraseIdx wf).length = l.length - 1 := by
    rw [List.length_eraseIdx]
    simp [hlt]
  have hcond : (0 : Int) ≤ (wf : Int) ∧ (wf : Int) < ((l.length : Nat) : Int) := by
    constructor
    · exact Int.ofNat_nonneg wf
    · exact_mod_cast hlt
  rw [ChatHistory.delete_message]
  simp only [hcond, and_self, if_true]
  by_cases hA : wf + 1 < l.length
  · -- not the last entry: the clamp is inert and set_focus lands on wf
    have hc1 : ¬ ((l.eraseIdx ((wf : Int)).toNat).length ≤ wf) := by
      simp only [Int.toNat_natCast, hlen2]
      omega
    rw [ChatHistory.walkerClamp]
    simp only [hc1, if_false]
    rw [ChatHistory.set_focus]
    simp only [Int.toNat_natCast, hlen2]
    have hmin : min (wf : Int) (((l.length - 1 : Nat) : Nat) : Int) = (wf : Int) := by
      omega
    rw [hmin]
    have hin : (0 : Int) ≤ (wf : Int) ∧ (wf : Int) < (((l.eraseIdx wf).length : Nat) : Int) := by
      constructor
      · exact Int.ofNat_nonneg wf
      · rw [hlen2]; omega
    simp only [hin, and_self, if_true, Int.toNat_natCast]
    have : min wf (l.length - 2) = wf := by omega
    rw [this]
    split <;> rfl
  · -- the last entry: the clamp moves the focus and set_focus is a no-op
    have hB : wf = l.length - 1 := by omega
    have hc1 : (l.eraseIdx ((wf : Int)).toNat).length ≤ wf := by
      simp only [Int.toNat_natCast, hlen2]
      omega
    rw [ChatHistory.walkerClamp]
    simp only [hc1, if_true]
    rw [ChatHistory.set_focus]
    simp only [Int.toNat_natCast, hlen2]
    rw [if_neg (by omega)]
    have : l.length - 1 - 1 = min wf (l.length - 2) := by omega
    rw [this]

/-- C4 counterexample: deleting the only remaining entry leaves the
document empty with no focused widget and does not change the mode flag -
no fresh empty entry is inserted and no transition to insert mode occurs,
contradicting the claim that the document ends in insert mode on exactly
one empty entry. -/
theorem C4_counterexample :
    lastEntryState.delete_focused_message.chat_history.message_list = [] ∧
    lastEntryState.delete_focused_message.insert_mode = false ∧
    lastEntryState.delete_focused_message.chat_history.focus = none := by
  refine ⟨rfl, rfl, rfl⟩

/-- C4 amended: delete_focused removes the entry at the focus index and
touches nothing else; when the document thereby becomes empty it stays
empty with no focused widget and an unchanged mode flag (a fresh empty
entry only appears when insert mode is next entered), and otherwise the
focus is clamped to min(old index, len - 1) where len is the length after
deletion. -/
theorem C4_delete_focused (s : VimKeyHandler) (idx : Nat)
    (hf : s.chat_history.focus_position = some idx)
    (hlt : idx < s.chat_history.message_list.length) :
    s.delete_focused_message.insert_mode = s.insert_mode ∧
    s.delete_focused_message.key_buffer = s.key_buffer ∧
    s.delete_focused_message.chat_history.message_list
      = s.chat_history.message_list.eraseIdx idx ∧
    (s.chat_history.message_list.length = 1 →
      s.delete_focused_message.chat_history.message_list = [] ∧
      s.delete_focused_message.chat_history.focus = none) ∧
    (1 < s.chat_history.message_list.length →
      s.delete_focused_message.chat_history.focus_position
        = some (min idx (s.chat_history.message_list.length - 1 - 1))) := by
  have hwf : s.chat_history.walker_focus = idx := by
    rw [ChatHistory.focus_position] at hf
    by_cases hemp : s.chat_history.message_list.isEmpty
    · rw [if_pos hemp] at hf
      cases hf
    · rw [if_neg hemp] at hf
      exact Option.some.inj hf
  have hstep : s.delete_focused_message =
      { s with chat_history :=
          { message_list := s.chat_history.message_list.eraseIdx idx,
            walker_focus := min idx (s.chat_history.message_list.length - 2) } } := by
    simp only [VimKeyHandler.delete_focused_message, hf]
    rw [delete_message_spec s.chat_history idx hwf hlt]
  have hlen : (s.chat_history.message_list.eraseIdx idx).length
      = s.chat_history.message_list.length - 1 := by
    rw [List.length_eraseIdx]
    simp [hlt]
  refine ⟨by rw [hstep], by rw [hstep], by rw [hstep], ?_, ?_⟩
  · intro h1
    have hnil : s.chat_history.message_list.eraseIdx idx = [] := by
      cases herase : s.chat_history.message_list.eraseIdx idx with
      | nil => rfl
      | cons a as =>
        exfalso
        rw [herase] at hlen
        simp at hlen
        omega
    constructor
    · rw [hstep]
      exact hnil
    · rw [hstep, ChatHistory.focus]
      simp [hnil]
  · intro h2
    rw [hstep, ChatHistory.focus_position]
    have hne : (s.chat_history.message_list.eraseIdx idx).isEmpty = false := by
      cases herase : s.chat_history.message_list.eraseIdx idx with
      | nil =>
        exfalso
        rw [herase] at hlen
        simp at hlen
        omega
      | cons a as => rfl
    simp only [hne, Bool.false_eq_true, if_false]
    have : s.chat_history.message_list.length - 2
        = s.chat_history.message_list.length - 1 - 1 := by omega
    rw [this]

/-- C4 amended witness: deleting the focused last entry of a two-entry
document removes it and clamps the focus to the new last index 0. -/
theorem C4_delete_focused_witness :
    deleteWitnessState.delete_focused_message.insert_mode = deleteWitnessState.insert_mode ∧
    deleteWitnessState.delete_focused_message.key_buffer = deleteWitnessState.key_buffer ∧
    deleteWitnessState.delete_focused_message.chat_history.message_list
      = deleteWitnessState.chat_history.message_list.eraseIdx 1 ∧
    (deleteWitnessState.chat_history.message_list.length = 1 →
      deleteWitnessState.delete_focused_message.chat_history.message_list = [] ∧
      deleteWitnessState.delete_focused_message.chat_history.focus = none) ∧
    (1 < deleteWitnessState.chat_history.message_list.length →
      deleteWitnessState.delete_focused_message.chat_history.focus_position
        = some (min 1 (deleteWitnessState.chat_history.message_list.length - 1 - 1))) :=
  C4_delete_focused deleteWitnessState 1 rfl (by decide)

/-- C6: every index-taking document operation is total and out-of-range
or empty-document calls change nothing.  set_focus and delete_message
leave the state untouched on any out-of-range index (negative included);
delete_focused and swap are no-ops on an empty document; swap with an
out-of-range target changes nothing even though the source entry was
already read; and swap-up at focus index 0 in particular leaves both the
sequence and the focus unchanged. -/
theorem C6_index_ops_total :
    (∀ (h : ChatHistory) (p : Int),
      (p < 0 ∨ (h.message_list.length : Int) ≤ p) → h.set_focus p = h) ∧
    (∀ (h : ChatHistory) (i : Int),
      (i < 0 ∨ (h.message_list.length : Int) ≤ i) → h.delete_message i = h) ∧
    (∀ s : VimKeyHandler, s.chat_history.message_list = [] →
      s.delete_focused_message = s ∧ ∀ d : Int, s.swap_message d = s) ∧
    (∀ (s : VimKeyHandler) (d : Int),
      ((s.chat_history.walker_focus : Int) + d < 0 ∨
        (s.chat_history.message_list.length : Int)
          ≤ (s.chat_history.walker_focus : Int) + d) →
      s.swap_message d = s) ∧
    (∀ s : VimKeyHandler, s.chat_history.walker_focus = 0 →
      s.swap_message (-1) = s) := by
  refine ⟨?_, ?_, ?_, ?_, ?_⟩
  · intro h p hp
    rw [ChatHistory.set_focus, if_neg]
    rintro ⟨h1, h2⟩
    rcases hp with hp | hp <;> omega
  · intro h i hi
    rw [ChatHistory.delete_message, if_neg]
    rintro ⟨h1, h2⟩
    rcases hi with hi | hi <;> omega
  · intro s hempty
    have hfp : s.chat_history.focus_position = none := by
      rw [ChatHistory.focus_position, hempty]
      rfl
    constructor
    · simp [VimKeyHandler.delete_focused_message, hfp]
    · intro d
      simp [VimKeyHandler.swap_message, hfp]
  · intro s d hd
    rw [VimKeyHandler.swap_message]
    cases hfp : s.chat_history.focus_position with
    | none => rfl
    | some idx =>
      have hidx : idx = s.chat_history.walker_focus := by
        rw [ChatHistory.focus_position] at hfp
        by_cases hemp : s.chat_history.message_list.isEmpty
        · rw [if_pos hemp] at hfp
          cases hfp
        · rw [if_neg hemp] at hfp
          exact (Option.some.inj hfp).symm
      simp only
      by_cases hneg : (0 : Int) ≤ (idx : Int) + d
      · rw [if_pos hneg]
        cases hm1 : s.chat_history.message_list[idx]? with
        | none => rfl
        | some message =>
          have hout : s.chat_history.message_list.length ≤ ((idx : Int) + d).toNat := by
            rcases hd with hd | hd
            · omega
            · rw [hidx] at hneg ⊢
              omega
          have hm2 : s.chat_history.message_list[((idx : Int) + d).toNat]? = none :=
            List.getElem?_eq_none hout
          rw [hm2]
      · rw [if_neg hneg]
  · intro s hwf
    rw [VimKeyHandler.swap_message]
    cases hfp : s.chat_history.focus_position with
    | none => rfl
    | some idx =>
      have hidx : idx = 0 := by
        rw [ChatHistory.focus_position] at hfp
        by_cases hemp : s.chat_history.message_list.isEmpty
        · rw [if_pos hemp] at hfp
          cases hfp
        · rw [if_neg hemp] at hfp
          rw [← Option.some.inj hfp, hwf]
      subst hidx
      simp only
      rw [if_neg (by omega)]

/-- C6 witness: concrete no-op calls - an out-of-range set_focus, a
negative-index delete, delete and swap on an empty document, a swap past
the end of a one-entry document, and swap-up at focus 0. -/
theorem C6_index_ops_total_witness :
    ChatHistory.set_focus oneEntryState.chat_history 5 = oneEntryState.chat_history ∧
    ChatHistory.delete_message oneEntryState.chat_history (-1)
      = oneEntryState.chat_history ∧
    emptyDocState.delete_focused_message = emptyDocState ∧
    emptyDocState.swap_message 3 = emptyDocState ∧
    oneEntryState.swap_message 1 = oneEntryState ∧
    oneEntryState.swap_message (-1) = oneEntryState :=
  ⟨C6_index_ops_total.1 oneEntryState.chat_history 5 (Or.inr (by decide)),
   C6_index_ops_total.2.1 oneEntryState.chat_history (-1) (Or.inl (by decide)),
   (C6_index_ops_total.2.2.1 emptyDocState rfl).1,
   (C6_index_ops_total.2.2.1 emptyDocState rfl).2 3,
   C6_index_ops_total.2.2.2.1 oneEntryState 1 (Or.inr (by decide)),
   C6_index_ops_total.2.2.2.2 oneEntryState rfl⟩
